import Mathlib

/-!
Shallow embedding of `client_pygame/display/display.py` (rookie-kit-2015):
the `Display` renderer class and its paint operations.  Drawing is modelled
as a trace of `DrawOp` values; the pygame surface itself carries no state
that the claims depend on.  Python 2 numeric semantics (floor division on
ints, true division otherwise, `round` half-away-from-zero, `int` truncation)
are modelled explicitly by the `PyNum` type.
-/

/-- A Python 2 number as it flows through the health-bar computation:
either an `int` or a `float` (modelled exactly by a rational). -/
inductive PyNum where
  | int (n : ℤ)
  | float (q : ℚ)
deriving DecidableEq, Repr

/-- Numeric value of a `PyNum`. -/
def pyVal : PyNum → ℚ
  | .int n => (n : ℚ)
  | .float q => q

/-- Python 2 `/`: floor division on two ints, true division otherwise. -/
def pyDiv : PyNum → PyNum → PyNum
  | .int a, .int b => .int (Int.fdiv a b)
  | a, b => .float (pyVal a / pyVal b)

/-- Python 2 `*`: int times int stays int, otherwise float. -/
def pyMul : PyNum → PyNum → PyNum
  | .int a, .int b => .int (a * b)
  | a, b => .float (pyVal a * pyVal b)

/-- Python 2 `int(round(x))`: round half away from zero, then truncate
(the truncation is the identity on the already-integral rounded value). -/
def pyRound (q : ℚ) : ℤ :=
  if 0 ≤ q then ⌊q + 1/2⌋ else ⌈q - 1/2⌉

/-- Python `str.ljust(w, c)`: pad `s` on the right with `c` up to width `w`;
a width not exceeding the current length leaves the string unchanged. -/
def ljust (s : List Char) (w : ℤ) (c : Char) : List Char :=
  s ++ List.replicate (w - (s.length : ℤ)).toNat c

/-- The fill character `chr(156)` used in the health bar. -/
def healthFillChar : Char := Char.ofNat 156

/-- The integer fill count `pct` computed by `paint_npc` / `paint_player`:
`int(round((health / max_health) * 10))` under Python 2 semantics. -/
def healthPct (h mh : PyNum) : ℤ :=
  pyRound (pyVal (pyMul (pyDiv h mh) (PyNum.int 10)))

/-- The health-bar characters built by `paint_npc` / `paint_player`:
`'|' + ''.ljust(pct, chr(156)).ljust(10) + '|'`. -/
def healthBarChars (h mh : PyNum) : List Char :=
  let pct := healthPct h mh
  let s1 := ljust [] pct healthFillChar
  let s2 := ljust s1 10 ' '
  '|' :: s2 ++ ['|']

/-- An RGB color triple. -/
abbrev Color := ℤ × ℤ × ℤ

/-- A pygame `Rect`: x, y, width, height. -/
structure Rect where
  x : ℚ
  y : ℚ
  w : ℚ
  h : ℚ
deriving DecidableEq, Repr

/-- One drawing (or logging) operation issued to the surface.  The paint
methods are modelled as producers of a list of these operations. -/
inductive DrawOp where
  | fill (color : Color) (rect : Rect)
  | drawRect (color : Color) (rect : Rect)
  | blit (image : String) (rect : Rect)
  | textCenter (s : String) (color : Color) (x y : ℚ) (font : String)
  | textLeft (s : String) (color : Color) (x y : ℚ) (font : String)
  | log (s : String)
deriving DecidableEq, Repr

/-- A game object as read (and, for missiles, written) by the painters:
position, size, velocity, health, liveness, id, duck-typed type predicates,
class name (used in the unexpected-type log line) and the stats shown in the
status bar. -/
structure GameObject where
  oid : ℤ
  x : ℚ
  y : ℚ
  w : ℚ
  h : ℚ
  dx : ℚ
  dy : ℚ
  health : PyNum
  max_health : PyNum
  alive : Bool
  isWall : Bool
  isNpc : Bool
  isMissile : Bool
  isPlayer : Bool
  className : String
  experience : ℚ
  move_mana : ℚ
  missile_mana : ℚ
deriving DecidableEq, Repr

/-- The control object: `hasBackgroundColor` models the Python
`hasattr(control, 'background_color')` probe. -/
structure Control where
  hasBackgroundColor : Bool
  background_color : Color
  show_info : Bool
  player_image : String
deriving DecidableEq, Repr

/-- The engine snapshot consumed by the painters: the id-to-object mapping
(as an association list in iteration order) and the per-player accessors. -/
structure Engine where
  objects : List (ℤ × GameObject)
  player_oid : ℤ
  opponent_oid : ℤ
  name : String
  opponent_name : String
  winner_name : String
deriving DecidableEq, Repr

/-- Modelled from the spec: the engine is an external collaborator whose
source is not included; `get_object` resolves an id in the engine's
object-id-to-object mapping, returning `none` (Python `None`, falsy) when
the id is absent. -/
def Engine.get_object (e : Engine) (oid : ℤ) : Option GameObject :=
  List.lookup oid e.objects

/-- The renderer state: the fields created by `Display.__init__`, plus the
`STATUS_BAR_HEIGHT` constant imported from the external `config` module. -/
structure Display where
  width : ℚ
  height : ℚ
  font_size : ℚ
  font : String
  player_color : Color
  opponent_color : Color
  missile_color : Color
  npc_color : Color
  wall_color : Color
  text_color : Color
  background_color : Color
  status_bar_height : ℚ
deriving DecidableEq, Repr

/-- Embedding of `Display.__init__(width, height)`: the fixed font and palette.
`status_bar_height` stands for the external `STATUS_BAR_HEIGHT` config
constant (modelled from the spec: `config` is not included in the source). -/
def Display.init (width height status_bar_height : ℚ) : Display :=
  { width := width
    height := height
    font_size := 12
    font := "Courier New"
    player_color := (0, 255, 0)
    opponent_color := (255, 0, 0)
    missile_color := (0, 255, 255)
    npc_color := (100, 100, 100)
    wall_color := (150, 75, 0)
    text_color := (255, 255, 255)
    background_color := (40, 199, 15)
    status_bar_height := status_bar_height }

/-- Modelled from the spec: `obj_to_rect` is inherited from the base display
class, whose source is not included; the spec describes it as a trivial
coordinate mapping from the object's current position and size to a
rectangle. -/
def objToRect (o : GameObject) : Rect :=
  { x := o.x, y := o.y, w := o.w, h := o.h }

/-- Embedding of `os.path.join('display', 'images', s)`. -/
def imagesPath (s : String) : String := "display/images/" ++ s

/-- Directional sprite selection in `paint_npc`:
dx>0 ↦ npc3, dx<0 ↦ npc4, dy>0 ↦ npc1, else npc2. -/
def npcImageName (o : GameObject) : String :=
  if o.dx > 0 then "npc3.png"
  else if o.dx < 0 then "npc4.png"
  else if o.dy > 0 then "npc1.png"
  else "npc2.png"

/-- Directional enemy sprite selection in `paint_player`:
dx>0 ↦ enemy1, dx<0 ↦ enemy2, dy>0 ↦ enemy3, else enemy4. -/
def enemyImageName (o : GameObject) : String :=
  if o.dx > 0 then "enemy1.png"
  else if o.dx < 0 then "enemy2.png"
  else if o.dy > 0 then "enemy3.png"
  else "enemy4.png"

/-- The text drawn by `paint_npc`: the health bar when alive, the literal
"LEVEL UP!" otherwise. -/
def npcHealthText (o : GameObject) : String :=
  if o.alive then String.mk (healthBarChars o.health o.max_health)
  else "LEVEL UP!"

/-- Embedding of `Display.paint_wall`: one filled rectangle in the wall color; the object
is returned unchanged (no mutation). -/
def paint_wall (d : Display) (o : GameObject) : List DrawOp × GameObject :=
  ([DrawOp.drawRect d.wall_color (objToRect o)], o)

/-- Embedding of `Display.paint_npc`: if alive, blit the directional sprite; in all cases
draw the health-bar-or-"LEVEL UP!" text centered at (x+2, y+3.5). -/
def paint_npc (d : Display) (o : GameObject) : List DrawOp × GameObject :=
  let spriteOps :=
    if o.alive then [DrawOp.blit (imagesPath (npcImageName o)) (objToRect o)] else []
  (spriteOps ++
    [DrawOp.textCenter (npcHealthText o) (200, 0, 0) (o.x + 2) (o.y + 7/2) d.font], o)

/-- Embedding of `Display.paint_missile`: if alive, overwrite the object's width and
height with 1.8, then blit the energy-ball image at the recomputed
rectangle; a dead missile draws nothing and is not mutated. -/
def paint_missile (o : GameObject) : List DrawOp × GameObject :=
  if o.alive then
    let o' := { o with w := 9/5, h := 9/5 }
    ([DrawOp.blit (imagesPath "Energy-Ball.png") (objToRect o')], o')
  else ([], o)

/-- Image path chosen by `paint_player` for an alive player: the
control-selected image for the local player, a directional enemy sprite
otherwise. -/
def playerImagePath (e : Engine) (c : Control) (o : GameObject) : String :=
  if o.oid = e.player_oid then imagesPath c.player_image
  else imagesPath (enemyImageName o)

/-- Embedding of `Display.paint_player`: always draws the health-bar text centered at
(x+2, y+3.5); if alive, additionally blits the player or enemy sprite. -/
def paint_player (d : Display) (e : Engine) (c : Control) (o : GameObject) :
    List DrawOp × GameObject :=
  let textOp :=
    DrawOp.textCenter (String.mk (healthBarChars o.health o.max_health))
      (200, 0, 0) (o.x + 2) (o.y + 7/2) d.font
  let spriteOps :=
    if o.alive then [DrawOp.blit (playerImagePath e c o) (objToRect o)] else []
  (textOp :: spriteOps, o)

/-- Names for the four duck-typed type predicates, in the priority order of
the `paint_game` dispatch chain. -/
inductive PredName where
  | wall
  | npc
  | missile
  | player
deriving DecidableEq, Repr

/-- The predicate each name stands for. -/
def predOf : PredName → GameObject → Bool
  | .wall, o => o.isWall
  | .npc, o => o.isNpc
  | .missile, o => o.isMissile
  | .player, o => o.isPlayer

/-- The painter each predicate name selects. -/
def painterOf : PredName → Display → Engine → Control → GameObject →
    List DrawOp × GameObject
  | .wall, d, _, _, o => paint_wall d o
  | .npc, d, _, _, o => paint_npc d o
  | .missile, _, _, _, o => paint_missile o
  | .player, d, e, c, o => paint_player d e c o

/-- The predicates consulted by the `if/elif` dispatch chain of
`paint_game`, in evaluation order: the chain stops at the first predicate
that holds, and consults all four when none holds. -/
def dispatchConsulted (o : GameObject) : List PredName :=
  if o.isWall then [.wall]
  else if o.isNpc then [.wall, .npc]
  else if o.isMissile then [.wall, .npc, .missile]
  else [.wall, .npc, .missile, .player]

/-- The predicate selected by the `if/elif` dispatch chain of `paint_game`
(`none` when the object matches no predicate). -/
def dispatchChoice (o : GameObject) : Option PredName :=
  if o.isWall then some .wall
  else if o.isNpc then some .npc
  else if o.isMissile then some .missile
  else if o.isPlayer then some .player
  else none

/-- The log line printed for an object matching no type predicate:
`"Unexpected object type: %s" % (str(obj.__class__))`. -/
def unexpectedMsg (o : GameObject) : String :=
  "Unexpected object type: " ++ o.className

/-- The per-object body of the `paint_game` loop: the `if/elif` chain over
the four type predicates, falling through to the log line. -/
def paintObject (d : Display) (e : Engine) (c : Control) (o : GameObject) :
    List DrawOp × GameObject :=
  if o.isWall then paint_wall d o
  else if o.isNpc then paint_npc d o
  else if o.isMissile then paint_missile o
  else if o.isPlayer then paint_player d e c o
  else ([DrawOp.log (unexpectedMsg o)], o)

/-- The `%.1f` format: one decimal digit.  (Modelled with round half away
from zero on the exact rational value.) -/
def fmt1 (q : ℚ) : String :=
  let m := pyRound (q * 10)
  let a := m.natAbs
  (if m < 0 then "-" else "") ++ toString (a / 10) ++ "." ++ toString (a % 10)

/-- The status line for the local player in `paint_game_status`. -/
def statusLineMe (e : Engine) (o : GameObject) : String :=
  "Me: " ++ e.name ++ "  HP: " ++ fmt1 (pyVal o.health) ++ "  XP: " ++
    fmt1 o.experience ++ " Moving: " ++ fmt1 o.move_mana ++ " Missiles: " ++
    fmt1 o.missile_mana

/-- The status line for the opponent in `paint_game_status`. -/
def statusLineOpponent (e : Engine) (o : GameObject) : String :=
  "Opponent: " ++ e.opponent_name ++ "  HP: " ++ fmt1 (pyVal o.health) ++
    "  XP: " ++ fmt1 o.experience ++ " Moving: " ++ fmt1 o.move_mana ++
    " Missiles: " ++ fmt1 o.missile_mana

/-- Embedding of `Display.paint_game_status`: one left-aligned stats line for the local
player when `player_oid > 0` resolves to an object, and one for the
opponent when `opponent_oid > 0` resolves to an object. -/
def paint_game_status (d : Display) (e : Engine) (control : Control) :
    List DrawOp :=
  let meOps :=
    if 0 < e.player_oid then
      match e.get_object e.player_oid with
      | some obj =>
          [DrawOp.textLeft (statusLineMe e obj) d.text_color 20
            (d.height - d.status_bar_height + 3 * d.font_size / (3/2)) d.font]
      | none => []
    else []
  let oppOps :=
    if 0 < e.opponent_oid then
      match e.get_object e.opponent_oid with
      | some obj =>
          [DrawOp.textLeft (statusLineOpponent e obj) d.text_color 20
            (d.height - d.status_bar_height + 6 * d.font_size / (3/2)) d.font]
      | none => []
    else []
  meOps ++ oppOps

/-- The result of a phase paint call: the draw-operation trace, the renderer
state after the call, and the object mapping after the call (missile
painting mutates objects in place). -/
structure PaintResult where
  ops : List DrawOp
  display : Display
  objects : List (ℤ × GameObject)
deriving DecidableEq, Repr

/-- Embedding of `Display.paint_game`: fill the whole surface with the cached background
color, then (after the fill) adopt `control.background_color` when present
and different, then paint every object of the engine mapping through the
dispatch chain, then draw the status overlay when `control.show_info`. -/
def paint_game (d : Display) (e : Engine) (c : Control) : PaintResult :=
  let bgOps := [DrawOp.fill d.background_color { x := 0, y := 0, w := d.width, h := d.height }]
  let d' :=
    if c.hasBackgroundColor ∧ c.background_color ≠ d.background_color then
      { d with background_color := c.background_color }
    else d
  let painted := e.objects.map fun kv => (kv.1, paintObject d' e c kv.2)
  let objOps := (painted.map fun kv => kv.2.1).flatten
  let statusOps := if c.show_info then paint_game_status d' e c else []
  { ops := bgOps ++ objOps ++ statusOps
    display := d'
    objects := painted.map fun kv => (kv.1, kv.2.2) }

/-- Python 2 `int(x)`: truncation toward zero. -/
def pyTrunc (q : ℚ) : ℤ :=
  if 0 ≤ q then ⌊q⌋ else ⌈q⌉

/-- The game-over message: `"Game Over (%s wins!)" % (engine.get_winner_name())`. -/
def gameOverMsg (e : Engine) : String :=
  "Game Over (" ++ e.winner_name ++ " wins!)"

/-- Embedding of `Display.paint_game_over`: delegate to `paint_game`, then draw the
game-over message centered at `(int(width/2), int(height/2))`. -/
def paint_game_over (d : Display) (e : Engine) (c : Control) : PaintResult :=
  let r := paint_game d e c
  { r with
      ops := r.ops ++
        [DrawOp.textCenter (gameOverMsg e) r.display.text_color
          ((pyTrunc (d.width / 2) : ℚ)) ((pyTrunc (d.height / 2) : ℚ)) r.display.font] }

/-- Whether an operation is a sprite blit. -/
def DrawOp.isBlit : DrawOp → Bool
  | .blit _ _ => true
  | _ => false

/-- Whether an operation is a left-aligned text draw. -/
def DrawOp.isTextLeft : DrawOp → Bool
  | .textLeft _ _ _ _ _ => true
  | _ => false

/-- The text strings carried by the text-drawing operations of a trace. -/
def textStrings : List DrawOp → List String
  | [] => []
  | .textCenter s _ _ _ _ :: l => s :: textStrings l
  | .textLeft s _ _ _ _ :: l => s :: textStrings l
  | _ :: l => textStrings l

/-- A concrete renderer fixture: an 800×600 display with status-bar
height 100, as built by `Display.__init__`. -/
def dFix : Display := Display.init 800 600 100

/-- A concrete engine fixture with an empty object mapping. -/
def eFix : Engine :=
  { objects := [], player_oid := 0, opponent_oid := 0,
    name := "alice", opponent_name := "bob", winner_name := "alice" }

/-- A concrete control fixture carrying a background-color override. -/
def cFix : Control :=
  { hasBackgroundColor := true, background_color := (1, 2, 3),
    show_info := false, player_image := "me.png" }

/-- A concrete dead player object (health 0 of 10). -/
def oDeadPlayer : GameObject :=
  { oid := 7, x := 1, y := 1, w := 2, h := 2, dx := 0, dy := 0,
    health := .int 0, max_health := .int 10, alive := false,
    isWall := false, isNpc := false, isMissile := false, isPlayer := true,
    className := "Player", experience := 0, move_mana := 0, missile_mana := 0 }

/-- A concrete alive NPC object. -/
def oNpcFix : GameObject :=
  { oid := 3, x := 5, y := 5, w := 2, h := 2, dx := 1, dy := 0,
    health := .int 4, max_health := .int 10, alive := true,
    isWall := false, isNpc := true, isMissile := false, isPlayer := false,
    className := "NPC", experience := 0, move_mana := 0, missile_mana := 0 }

lemma pyVal_pyMul_ten (x : PyNum) :
    pyVal (pyMul x (PyNum.int 10)) = pyVal x * 10 := by
  cases x <;> simp [pyMul, pyVal]

lemma healthPct_eq (h mh : PyNum) :
    healthPct h mh = pyRound (pyVal (pyDiv h mh) * 10) := by
  rw [healthPct, pyVal_pyMul_ten]

lemma pyRound_intCast (n : ℤ) : pyRound ((n : ℚ)) = n := by
  rcases le_or_lt 0 ((n : ℚ)) with hn | hn
  · rw [pyRound, if_pos hn]
    rw [show ((n : ℚ) + 1/2) = 1/2 + (n : ℚ) by ring, Int.floor_add_int]
    norm_num
  · rw [pyRound, if_neg (not_le.mpr hn)]
    rw [show ((n : ℚ) - 1/2) = -(1/2) + (n : ℚ) by ring, Int.ceil_add_int]
    norm_num

lemma pyRound_nonneg {q : ℚ} (h : 0 ≤ q) : 0 ≤ pyRound q := by
  rw [pyRound, if_pos h]
  have h2 : (0 : ℚ) ≤ q + 1/2 := by linarith
  exact Int.le_floor.mpr (by exact_mod_cast h2)

lemma pyRound_le {q : ℚ} {n : ℤ} (h : q ≤ n) : pyRound q ≤ n := by
  rw [pyRound]
  split
  · have : ⌊q + 1/2⌋ < n + 1 := by
      rw [Int.floor_lt]
      push_cast
      linarith
    omega
  · exact Int.ceil_le.mpr (by linarith)

lemma healthBarChars_canonical (h mh : PyNum) :
    healthBarChars h mh =
      '|' :: (List.replicate (healthPct h mh).toNat healthFillChar ++
        List.replicate (10 - (healthPct h mh).toNat) ' ') ++ ['|'] := by
  simp [healthBarChars, ljust]
  omega

lemma healthBarChars_count (h mh : PyNum) :
    (healthBarChars h mh).count healthFillChar = (healthPct h mh).toNat := by
  have hs : healthFillChar ≠ ' ' := by decide
  have hb : healthFillChar ≠ '|' := by decide
  rw [healthBarChars_canonical]
  simp [List.count_cons, List.count_append, List.count_replicate,
    hs.symm, hb.symm]

lemma healthBarChars_length (h mh : PyNum) :
    (healthBarChars h mh).length = 2 + Max.max 10 (healthPct h mh).toNat := by
  rw [healthBarChars_canonical]
  simp
  omega

lemma healthBar_ne_level_up (h mh : PyNum) :
    String.mk (healthBarChars h mh) ≠ "LEVEL UP!" := by
  rw [healthBarChars_canonical]
  intro heq
  have hdata : '|' :: (List.replicate (healthPct h mh).toNat healthFillChar ++
      List.replicate (10 - (healthPct h mh).toNat) ' ') ++ ['|'] =
      "LEVEL UP!".data := congrArg String.data heq
  rw [show "LEVEL UP!".data = ['L', 'E', 'V', 'E', 'L', ' ', 'U', 'P', '!'] from rfl]
    at hdata
  injection hdata with h1 _
  exact absurd h1 (by decide)

lemma paint_game_display_eq (d : Display) (e : Engine) (c : Control) :
    (paint_game d e c).display =
      if c.hasBackgroundColor ∧ c.background_color ≠ d.background_color then
        { d with background_color := c.background_color }
      else d := rfl

lemma paint_game_display_text_color (d : Display) (e : Engine) (c : Control) :
    (paint_game d e c).display.text_color = d.text_color := by
  rw [paint_game_display_eq]
  split <;> rfl

lemma paint_game_display_font (d : Display) (e : Engine) (c : Control) :
    (paint_game d e c).display.font = d.font := by
  rw [paint_game_display_eq]
  split <;> rfl

/-- C3: the draw-operation sequence of `paint_game_over` is exactly that of
`paint_game` on the same inputs followed by one additional centered text
draw of `"Game Over (<name> wins!)"` with the engine's winner name
substituted; renderer state and object mapping agree with `paint_game`. -/
theorem paint_game_over_refines_paint_game (d : Display) (e : Engine) (c : Control) :
    (paint_game_over d e c).ops =
      (paint_game d e c).ops ++
        [DrawOp.textCenter ("Game Over (" ++ e.winner_name ++ " wins!)")
          d.text_color ((pyTrunc (d.width / 2) : ℚ)) ((pyTrunc (d.height / 2) : ℚ))
          d.font] ∧
    (paint_game_over d e c).display = (paint_game d e c).display ∧
    (paint_game_over d e c).objects = (paint_game d e c).objects := by
  refine ⟨?_, rfl, rfl⟩
  rw [paint_game_over]
  rw [show gameOverMsg e = "Game Over (" ++ e.winner_name ++ " wins!)" from rfl]
  rw [paint_game_display_text_color, paint_game_display_font]

/-- C9: across all per-object paint operations, the only mutation is the
missile painter overwriting an alive missile's width and height with the
fixed size 1.8; all other fields and all other painters leave the object
unchanged, and a dead missile is neither mutated nor drawn. -/
theorem paint_mutation_only_missile_size (d : Display) (e : Engine) (c : Control)
    (o : GameObject) :
    (paint_wall d o).2 = o ∧
    (paint_npc d o).2 = o ∧
    (paint_player d e c o).2 = o ∧
    { (paint_missile o).2 with w := o.w, h := o.h } = o ∧
    paint_missile o =
      (if o.alive then
        ([DrawOp.blit (imagesPath "Energy-Ball.png")
            (objToRect { o with w := 9/5, h := 9/5 })],
          { o with w := 9/5, h := 9/5 })
      else ([], o)) := by
  obtain ⟨oid, x, y, w, h, dx, dy, hl, mhl, alive, iw, inp, im, ip, cn, ex, mm, mim⟩ := o
  cases alive <;>
    simp [paint_wall, paint_npc, paint_player, paint_missile]

/-- C7: a per-object paint call on an object whose alive predicate is false
never issues a sprite blit: the NPC and player painters emit no blit
operation, and the missile painter emits nothing at all (walls have no
liveness check and are exempt). -/
theorem dead_objects_never_blit (d : Display) (e : Engine) (c : Control)
    (o : GameObject) (hdead : o.alive = false) :
    ((paint_npc d o).1.all fun op => !op.isBlit) = true ∧
    (paint_missile o).1 = [] ∧
    ((paint_player d e c o).1.all fun op => !op.isBlit) = true := by
  simp [paint_npc, paint_missile, paint_player, hdead, DrawOp.isBlit]

/-- Witness for C7 at a concrete dead player object. -/
theorem dead_objects_never_blit_witness :
    oDeadPlayer.alive = false ∧
    (((paint_npc dFix oDeadPlayer).1.all fun op => !op.isBlit) = true ∧
      (paint_missile oDeadPlayer).1 = [] ∧
      ((paint_player dFix eFix cFix oDeadPlayer).1.all fun op => !op.isBlit) = true) :=
  ⟨rfl, dead_objects_never_blit dFix eFix cFix oDeadPlayer rfl⟩

/-- C8: `paint_game_status` draws exactly one left-aligned line per id
(player, opponent) that is positive and resolves in the engine's object
mapping, and zero lines otherwise; every emitted operation is a
left-aligned text draw. -/
theorem paint_game_status_line_count (d : Display) (e : Engine) (c : Control) :
    (paint_game_status d e c).length =
      (if 0 < e.player_oid ∧ (e.get_object e.player_oid).isSome then 1 else 0) +
      (if 0 < e.opponent_oid ∧ (e.get_object e.opponent_oid).isSome then 1 else 0) ∧
    ((paint_game_status d e c).all DrawOp.isTextLeft) = true := by
  rcases hp : e.get_object e.player_oid with _ | obj <;>
    rcases ho : e.get_object e.opponent_oid with _ | obj' <;>
    by_cases h1 : 0 < e.player_oid <;>
    by_cases h2 : 0 < e.opponent_oid <;>
    simp [paint_game_status, hp, ho, h1, h2, DrawOp.isTextLeft]

/-- C6 counterexample: an NPC object (wall predicate false, npc predicate
true) makes the dispatch chain consult two predicates, not exactly one. -/
theorem dispatch_consults_two_predicates_cex :
    dispatchConsulted oNpcFix = [PredName.wall, PredName.npc] ∧
    (dispatchConsulted oNpcFix).length ≠ 1 ∧
    oNpcFix.isNpc = true ∧ oNpcFix.isWall = false := by
  refine ⟨rfl, ?_, rfl, rfl⟩
  simp [dispatchConsulted, oNpcFix]

/-- C6 (amended): the dispatch chain of `paint_game` checks the four type
predicates in the fixed order wall, npc, missile, player, stopping at the
first that holds (so it consults a nonempty prefix of that order, every
consulted predicate before the last being false); exactly the painter of
the first matching predicate runs, and an object matching none produces
zero draw operations and exactly one log entry. -/
theorem dispatch_first_match_characterization (d : Display) (e : Engine)
    (c : Control) (o : GameObject) :
    dispatchConsulted o =
      List.take (dispatchConsulted o).length
        [PredName.wall, PredName.npc, PredName.missile, PredName.player] ∧
    ((dispatchConsulted o).dropLast.all fun p => !(predOf p o)) = true ∧
    dispatchChoice o =
      (dispatchConsulted o).getLast?.bind
        (fun p => if predOf p o then some p else none) ∧
    paintObject d e c o =
      (match dispatchChoice o with
        | some p => painterOf p d e c o
        | none => ([DrawOp.log (unexpectedMsg o)], o)) := by
  cases hw : o.isWall <;> cases hn : o.isNpc <;> cases hm : o.isMissile <;>
    cases hp : o.isPlayer <;>
    simp [dispatchConsulted, dispatchChoice, paintObject, predOf, painterOf,
      hw, hn, hm, hp]

/-- C1 counterexample: with the initial cached background `(40, 199, 15)`
and a control override `(1, 2, 3)`, the very `paint_game` call that sees the
override fills with the old cached color; no fill with the new color occurs
in that call's trace, although the new color is stored. -/
theorem paint_game_background_fill_old_color_cex :
    cFix.hasBackgroundColor = true ∧
    cFix.background_color ≠ dFix.background_color ∧
    (paint_game dFix eFix cFix).ops =
      [DrawOp.fill (40, 199, 15) { x := 0, y := 0, w := 800, h := 600 }] ∧
    DrawOp.fill cFix.background_color { x := 0, y := 0, w := 800, h := 600 } ∉
      (paint_game dFix eFix cFix).ops ∧
    (paint_game dFix eFix cFix).display.background_color = cFix.background_color := by
  refine ⟨rfl, by norm_num [cFix, dFix, Display.init], ?_, ?_, ?_⟩ <;>
    norm_num [paint_game, cFix, dFix, eFix, Display.init, paint_game_status]

/-- C1 (amended): when the control carries a background color different from
the cached one, the `paint_game` call that sees it still fills with the
previously cached color, then stores the new color in the renderer state, so
the next `paint_game` call (and subsequent ones) fill with the new color. -/
theorem paint_game_background_persists_next_call (d : Display) (e : Engine)
    (c : Control) (h1 : c.hasBackgroundColor = true)
    (h2 : c.background_color ≠ d.background_color) :
    (paint_game d e c).ops.head? =
      some (DrawOp.fill d.background_color
        { x := 0, y := 0, w := d.width, h := d.height }) ∧
    (paint_game d e c).display.background_color = c.background_color ∧
    (paint_game (paint_game d e c).display e c).ops.head? =
      some (DrawOp.fill c.background_color
        { x := 0, y := 0, w := d.width, h := d.height }) := by
  have hcond : (c.hasBackgroundColor ∧ c.background_color ≠ d.background_color) :=
    ⟨h1, h2⟩
  refine ⟨?_, ?_, ?_⟩ <;>
    simp [paint_game, hcond]

/-- Witness for C1 (amended) at the concrete fixtures. -/
theorem paint_game_background_persists_next_call_witness :
    cFix.hasBackgroundColor = true ∧
    cFix.background_color ≠ dFix.background_color ∧
    ((paint_game dFix eFix cFix).ops.head? =
      some (DrawOp.fill dFix.background_color
        { x := 0, y := 0, w := dFix.width, h := dFix.height }) ∧
    (paint_game dFix eFix cFix).display.background_color = cFix.background_color ∧
    (paint_game (paint_game dFix eFix cFix).display eFix cFix).ops.head? =
      some (DrawOp.fill cFix.background_color
        { x := 0, y := 0, w := dFix.width, h := dFix.height })) :=
  ⟨rfl, by norm_num [cFix, dFix, Display.init],
    paint_game_background_persists_next_call dFix eFix cFix rfl
      (by norm_num [cFix, dFix, Display.init])⟩

/-- C2 counterexample: at a concrete dead player object, the NPC rule would
draw the literal "LEVEL UP!", but the player painter draws the health-bar
string `"|          |"` instead: the player painter does not follow the NPC
painter's liveness rule for its text. -/
theorem paint_player_dead_not_level_up_cex :
    oDeadPlayer.alive = false ∧
    npcHealthText oDeadPlayer = "LEVEL UP!" ∧
    textStrings (paint_player dFix eFix cFix oDeadPlayer).1 = ["|          |"] ∧
    ("|          |" : String) ≠ "LEVEL UP!" := by
  refine ⟨rfl, rfl, ?_, by decide⟩
  have hpct : healthPct (PyNum.int 0) (PyNum.int 10) = 0 := by
    norm_num [healthPct, pyDiv, pyMul, pyVal, pyRound, Int.fdiv]
  have hbar : healthBarChars (PyNum.int 0) (PyNum.int 10) =
      '|' :: (List.replicate 0 healthFillChar ++ List.replicate 10 ' ') ++ ['|'] := by
    rw [healthBarChars_canonical, hpct]
    rfl
  simp [paint_player, textStrings, oDeadPlayer, hbar]

/-- C2 (amended): the player painter always draws exactly one text, the
health-bar string (never "LEVEL UP!"), regardless of liveness; only the
sprite blit is gated on the alive predicate (one blit when alive, none
otherwise). -/
theorem paint_player_text_always_health_bar (d : Display) (e : Engine)
    (c : Control) (o : GameObject) :
    (paint_player d e c o).1.head? =
      some (DrawOp.textCenter (String.mk (healthBarChars o.health o.max_health))
        (200, 0, 0) (o.x + 2) (o.y + 7/2) d.font) ∧
    textStrings (paint_player d e c o).1 =
      [String.mk (healthBarChars o.health o.max_health)] ∧
    String.mk (healthBarChars o.health o.max_health) ≠ "LEVEL UP!" ∧
    ((paint_player d e c o).1.filter DrawOp.isBlit).length =
      (if o.alive then 1 else 0) := by
  refine ⟨rfl, ?_, healthBar_ne_level_up o.health o.max_health, ?_⟩ <;>
    cases ha : o.alive <;>
    simp [paint_player, textStrings, DrawOp.isBlit, ha]

/-- C4: whenever the ratio computed by the source's division of health by
max-health lies in [0, 1], the health-bar string has length exactly 12 (a
bar, ten characters, a bar) and contains exactly `round(r*10)` fill
characters, right-padded with spaces to width 10. -/
theorem health_bar_length_and_fill_in_range (h mh : PyNum)
    (hpos : 0 < pyVal mh) (h0 : 0 ≤ pyVal (pyDiv h mh))
    (h1 : pyVal (pyDiv h mh) ≤ 1) :
    (healthBarChars h mh).length = 12 ∧
    ((healthBarChars h mh).count healthFillChar : ℤ) =
      pyRound (pyVal (pyDiv h mh) * 10) ∧
    healthBarChars h mh =
      '|' :: (List.replicate (pyRound (pyVal (pyDiv h mh) * 10)).toNat
          healthFillChar ++
        List.replicate (10 - (pyRound (pyVal (pyDiv h mh) * 10)).toNat) ' ') ++
        ['|'] := by
  have hnn : 0 ≤ pyRound (pyVal (pyDiv h mh) * 10) :=
    pyRound_nonneg (by linarith)
  have hle : pyRound (pyVal (pyDiv h mh) * 10) ≤ 10 :=
    pyRound_le (by push_cast; linarith)
  have hpct := healthPct_eq h mh
  refine ⟨?_, ?_, ?_⟩
  · rw [healthBarChars_length, hpct]
    omega
  · rw [healthBarChars_count, hpct]
    omega
  · rw [healthBarChars_canonical, hpct]

/-- Witness for C4 at health 1/2 and max-health 1 (float values). -/
theorem health_bar_length_and_fill_in_range_witness :
    0 < pyVal (PyNum.float 1) ∧
    0 ≤ pyVal (pyDiv (PyNum.float (1/2)) (PyNum.float 1)) ∧
    pyVal (pyDiv (PyNum.float (1/2)) (PyNum.float 1)) ≤ 1 ∧
    ((healthBarChars (PyNum.float (1/2)) (PyNum.float 1)).length = 12 ∧
    ((healthBarChars (PyNum.float (1/2)) (PyNum.float 1)).count healthFillChar : ℤ) =
      pyRound (pyVal (pyDiv (PyNum.float (1/2)) (PyNum.float 1)) * 10) ∧
    healthBarChars (PyNum.float (1/2)) (PyNum.float 1) =
      '|' :: (List.replicate
          (pyRound (pyVal (pyDiv (PyNum.float (1/2)) (PyNum.float 1)) * 10)).toNat
          healthFillChar ++
        List.replicate
          (10 - (pyRound (pyVal (pyDiv (PyNum.float (1/2)) (PyNum.float 1)) * 10)).toNat)
          ' ') ++ ['|']) :=
  ⟨by norm_num [pyVal], by norm_num [pyDiv, pyVal], by norm_num [pyDiv, pyVal],
    health_bar_length_and_fill_in_range (PyNum.float (1/2)) (PyNum.float 1)
      (by norm_num [pyVal]) (by norm_num [pyDiv, pyVal])
      (by norm_num [pyDiv, pyVal])⟩

/-- C5 counterexample: at health 20 and max-health 10 (so a ratio of 2), the
fill count is 20, not clamped to the 0..10 range: the bar contains 20 fill
characters and the string has length 22, not 12 — the padding operation
clamps only from below. -/
theorem health_bar_not_clamped_above_cex :
    0 < pyVal (PyNum.int 10) ∧
    (healthBarChars (PyNum.int 20) (PyNum.int 10)).count healthFillChar = 20 ∧
    (healthBarChars (PyNum.int 20) (PyNum.int 10)).length = 22 ∧
    ¬((healthBarChars (PyNum.int 20) (PyNum.int 10)).count healthFillChar ≤ 10) := by
  have hpct : healthPct (PyNum.int 20) (PyNum.int 10) = 20 := by
    norm_num [healthPct, pyDiv, pyMul, pyVal, pyRound, Int.fdiv]
  refine ⟨by norm_num [pyVal], ?_, ?_, ?_⟩
  · rw [healthBarChars_count, hpct]
    rfl
  · rw [healthBarChars_length, hpct]
    rfl
  · rw [healthBarChars_count, hpct]
    omega

/-- C5 (amended): for every health and max-health, the fill count is
`round((health / max_health) * 10)` under the source's division semantics,
clamped from below to 0 by the padding operation but not from above: the
string is the fill characters followed by spaces up to width 10 (so exactly
width 10 plus the two bars when the count is at most 10, and wider when the
count exceeds 10). -/
theorem health_bar_canonical_form (h mh : PyNum) :
    healthPct h mh = pyRound (pyVal (pyDiv h mh) * 10) ∧
    healthBarChars h mh =
      '|' :: (List.replicate (healthPct h mh).toNat healthFillChar ++
        List.replicate (10 - (healthPct h mh).toNat) ' ') ++ ['|'] ∧
    (healthBarChars h mh).count healthFillChar = (healthPct h mh).toNat ∧
    (healthBarChars h mh).length = 2 + Max.max 10 (healthPct h mh).toNat :=
  ⟨healthPct_eq h mh, healthBarChars_canonical h mh,
    healthBarChars_count h mh, healthBarChars_length h mh⟩

/-- C10: for integer health and max-health with 0 ≤ health < max-health,
Python 2 floor division truncates the ratio to 0 before scaling, so the
health bar renders empty: fill count 0 and ten spaces between the bars. -/
theorem int_health_bar_truncates_empty (h mh : ℤ) (h0 : 0 ≤ h) (hlt : h < mh) :
    healthPct (PyNum.int h) (PyNum.int mh) = 0 ∧
    healthBarChars (PyNum.int h) (PyNum.int mh) =
      '|' :: List.replicate 10 ' ' ++ ['|'] ∧
    (healthBarChars (PyNum.int h) (PyNum.int mh)).count healthFillChar = 0 := by
  have hfd : h.fdiv mh = 0 := by
    rw [Int.fdiv_eq_ediv h (by omega)]
    exact Int.ediv_eq_zero_of_lt h0 hlt
  have hpct : healthPct (PyNum.int h) (PyNum.int mh) = 0 := by
    rw [healthPct]
    simp [pyDiv, pyMul, pyVal, hfd]
    exact pyRound_intCast 0
  refine ⟨hpct, ?_, ?_⟩
  · rw [healthBarChars_canonical, hpct]
    rfl
  · rw [healthBarChars_count, hpct]
    rfl

/-- Witness for C10 at health 3 and max-health 7. -/
theorem int_health_bar_truncates_empty_witness :
    (0 : ℤ) ≤ 3 ∧ (3 : ℤ) < 7 ∧
    (healthPct (PyNum.int 3) (PyNum.int 7) = 0 ∧
    healthBarChars (PyNum.int 3) (PyNum.int 7) =
      '|' :: List.replicate 10 ' ' ++ ['|'] ∧
    (healthBarChars (PyNum.int 3) (PyNum.int 7)).count healthFillChar = 0) :=
  ⟨by norm_num, by norm_num,
    int_health_bar_truncates_empty 3 7 (by norm_num) (by norm_num)⟩
